import Mathlib

/-!
Shallow embedding of `phosphobot_client.py` (SO-101 robot HTTP client):
the validator (`_validate_numeric`, `_validate_grip`, `_validate_move`),
the safety envelope (`MovementLimits`), the error taxonomy, and the
retry/backoff request executor (`_request`, `_backoff_delay`,
`_extract_error_message`).

Host-language numbers are modelled exactly where the code distinguishes
them: a Python value reaching the validators is a bool, an int, a float
(finite rational, NaN, +inf, or -inf) or a non-numeric string; floats are
rationals plus the non-finite values, which is enough because the code
only tests finiteness and order on them.  The HTTP transport is modelled
as a sequence of per-attempt outcomes (timeout exception, non-timeout
transport exception, or a response with status / raw text / optional
decoded JSON body); the executor loop is translated statement by
statement from `_request`.
-/

namespace Phosphobot

/-- JSON values, as produced by `response.json()`. -/
inductive Json where
  | null
  | bool (b : Bool)
  | num (q : ℚ)
  | str (s : String)
  | arr (xs : List Json)
  | obj (kvs : List (String × Json))

/-- `isinstance(payload, dict)` on a decoded JSON value. -/
def Json.isObj : Json → Bool
  | .obj _ => true
  | _ => false

/-- A Python float value: finite (modelled as a rational), NaN, or ±infinity. -/
inductive FloatVal where
  | finite (q : ℚ)
  | nan
  | inf
  | ninf
deriving DecidableEq

/-- `math.isfinite` on a float value. -/
def FloatVal.isFinite : FloatVal → Bool
  | .finite _ => true
  | _ => false

/-- A Python value reaching the validators: bool, int, float, or a
non-numeric value (represented by its string form).  `bool` is kept
separate from `int` even though Python booleans are ints, because the
code tests `isinstance(value, bool)` first. -/
inductive PyNum where
  | bool (b : Bool)
  | int (n : ℤ)
  | float (v : FloatVal)
  | str (s : String)
deriving DecidableEq

/-- `float(value)` for the numeric values the validator lets through. -/
def pyFloat : PyNum → FloatVal
  | .bool b => .finite (if b then 1 else 0)
  | .int n => .finite (n : ℚ)
  | .float v => v
  | .str _ => .nan

/-- Reason tag for a `ValidationError` message (the code raises a single
`ValidationError` type whose message distinguishes these cases). -/
inductive ValReason where
  | notNumber
  | notFinite
  | outOfRange
  | notInteger
deriving DecidableEq

/-- The error taxonomy of `phosphobot_client.py`: `ValidationError`,
`HTTPError(status_code, message, response_body)`, `TimeoutError(message)`,
`ResponseDecodeError(message)` — all direct subclasses of the base
`PhosphobotError`, none wrapping another. -/
inductive PError where
  | validation (field : String) (reason : ValReason)
  | http (status : ℤ) (message : String) (rawBody : Option String)
  | timeout (message : String)
  | decode (reason : String)
deriving DecidableEq

/-- Discriminator: which kind of error a `PError` is. -/
def PError.kindName : PError → String
  | .validation _ _ => "validation"
  | .http _ _ _ => "http"
  | .timeout _ => "timeout"
  | .decode _ => "decode"

/-- Message of `HTTPError(-1, ...)` raised on `requests.RequestException`. -/
def transportErrMsg : String := "Transport error talking to Phosphobot API."

/-- Message of the `TimeoutError` raised inside the loop when the final
attempt times out. -/
def timeoutRepeatedMsg : String :=
  "Request timed out repeatedly. Check that Phosphobot is reachable and consider increasing the timeout."

/-- Message of the `TimeoutError` raised after the loop (line 275). -/
def timeoutFallbackMsg : String :=
  "Request failed after maximum retries without a valid response."

/-- Message of the `ResponseDecodeError` for a body that is not valid JSON. -/
def decodeNotJsonMsg : String :=
  "Phosphobot returned a response that is not valid JSON. Check the controller logs or update the client."

/-- Message of the `ResponseDecodeError` for a JSON body that is not an object. -/
def decodeNotObjectMsg : String :=
  "API returned JSON that is not an object. Update your client if the API contract has changed."

/-- Fallback message of `_extract_error_message`. -/
def genericHttpErrMsg : String := "Phosphobot API returned an error."

/-- `MovementLimits`: the safety envelope.  Field defaults are the
defaults of the dataclass. -/
structure MovementLimits where
  x_cm : Option (ℚ × ℚ) := some (-80, 80)
  y_cm : Option (ℚ × ℚ) := some (-80, 80)
  z_cm : Option (ℚ × ℚ) := some (0, 90)
  roll_deg : Option (ℚ × ℚ) := some (-180, 180)
  pitch_deg : Option (ℚ × ℚ) := some (-180, 180)
  yaw_deg : Option (ℚ × ℚ) := some (-180, 180)
  grip : ℤ × ℤ := (0, 100)

/-- The default envelope `MovementLimits()`. -/
def defaultLimits : MovementLimits := {}

/-- `MovementLimits.get_range(axis)`: `getattr`-style lookup by axis name.
The code only calls it with the six pose-axis names. -/
def MovementLimits.get_range (l : MovementLimits) : String → Option (ℚ × ℚ)
  | "x_cm" => l.x_cm
  | "y_cm" => l.y_cm
  | "z_cm" => l.z_cm
  | "roll_deg" => l.roll_deg
  | "pitch_deg" => l.pitch_deg
  | "yaw_deg" => l.yaw_deg
  | _ => none

/-- The finiteness and range checks of `_validate_numeric`, applied after
`float(value)`: reject non-finite, then — when a range is configured —
reject values strictly outside it; otherwise return the float. -/
def validateFinite (name : String) (v : FloatVal) (range? : Option (ℚ × ℚ)) :
    Except PError ℚ :=
  match v with
  | .finite q =>
      match range? with
      | none => .ok q
      | some (lower, upper) =>
          if q < lower ∨ q > upper then
            .error (.validation name .outOfRange)
          else
            .ok q
  | _ => .error (.validation name .notFinite)

/-- `PhosphobotClient._validate_numeric(name, value, value_range)`:
reject bools and non-numeric input, convert to float, reject non-finite
values, then apply the optional range check. -/
def validate_numeric (name : String) (value : PyNum)
    (range? : Option (ℚ × ℚ)) : Except PError ℚ :=
  match value with
  | .bool _ => .error (.validation name .notNumber)
  | .str _ => .error (.validation name .notNumber)
  | v => validateFinite name (pyFloat v) range?

/-- `PhosphobotClient._validate_grip(grip, grip_range)`: require a
non-bool int, then require it inside the (mandatory) grip range. -/
def validate_grip (grip : PyNum) (grip_range : ℤ × ℤ) : Except PError ℤ :=
  match grip with
  | .int n =>
      if n < grip_range.1 ∨ n > grip_range.2 then
        .error (.validation "grip" .outOfRange)
      else
        .ok n
  | _ => .error (.validation "grip" .notInteger)

/-- The validated payload built by `_validate_move` (the wire-ready dict). -/
structure MovePayload where
  x_cm : ℚ
  y_cm : ℚ
  z_cm : ℚ
  roll_deg : ℚ
  pitch_deg : ℚ
  yaw_deg : ℚ
  grip : ℤ
deriving DecidableEq

/-- `PhosphobotClient._validate_move`: validate each field in the fixed
order x, y, z, roll, pitch, yaw, grip; the first failure aborts (the
first raised `ValidationError` propagates, so no partial payload is ever
produced). -/
def validate_move (x y z roll pitch yaw grip : PyNum)
    (limits : MovementLimits) : Except PError MovePayload := do
  let px ← validate_numeric "x_cm" x (limits.get_range "x_cm")
  let py ← validate_numeric "y_cm" y (limits.get_range "y_cm")
  let pz ← validate_numeric "z_cm" z (limits.get_range "z_cm")
  let pr ← validate_numeric "roll_deg" roll (limits.get_range "roll_deg")
  let pp ← validate_numeric "pitch_deg" pitch (limits.get_range "pitch_deg")
  let pyaw ← validate_numeric "yaw_deg" yaw (limits.get_range "yaw_deg")
  let pg ← validate_grip grip limits.grip
  return ⟨px, py, pz, pr, pp, pyaw, pg⟩

/-- `max_retries if max_retries >= 1 else 1` in `PhosphobotClient.__init__`. -/
def clampRetries (max_retries : ℤ) : ℤ :=
  if max_retries ≥ 1 then max_retries else 1

/-- Python's two-argument `min(a, b)`: returns `b` exactly when `b < a`. -/
def pymin (a b : ℚ) : ℚ := if b < a then b else a

/-- `PhosphobotClient._backoff_delay(attempt)`:
`min(0.25 * 2 ** (attempt - 1), 5.0)`. -/
def backoffDelay (attempt : ℕ) : ℚ :=
  pymin ((1 / 4 : ℚ) * 2 ^ (attempt - 1)) 5

theorem pymin_eq_min (a b : ℚ) : pymin a b = min a b := by
  by_cases h : b < a
  · simp [pymin, h, min_eq_right h.le]
  · simp [pymin, h, min_eq_left (le_of_not_lt h)]

/-- An HTTP response as the executor sees it: status code, raw text, and
the result of `response.json()` (`none` when that raises `ValueError`). -/
structure HttpResponse where
  status : ℕ
  text : String
  json : Option Json

/-- The outcome of one `self._session.request(...)` call: a
`requests.Timeout`, a non-timeout `requests.RequestException`, or a
response. -/
inductive AttemptOutcome where
  | timeout
  | transportError
  | response (r : HttpResponse)

/-- First string value among the keys `message`, `error`, `detail`,
`reason` of a decoded JSON object (`_extract_error_message`'s key loop).
A key that is present but not a string is skipped. -/
def findMsgKey (kvs : List (String × Json)) : List String → Option String
  | [] => none
  | k :: rest =>
      match kvs.lookup k with
      | some (.str s) => some s
      | _ => findMsgKey kvs rest

/-- The `response.text` fallback of `_extract_error_message`: strip, take
the first 200 characters if non-empty, else the generic message. -/
def fallbackErrMsg (text : String) : String :=
  let t := text.trim
  if t = "" then genericHttpErrMsg else t.take 200

/-- `PhosphobotClient._extract_error_message(response)`. -/
def extractErrorMessage (r : HttpResponse) : String :=
  match r.json with
  | some (.obj kvs) =>
      match findMsgKey kvs ["message", "error", "detail", "reason"] with
      | some s => s
      | none => fallbackErrMsg r.text
  | _ => fallbackErrMsg r.text

/-- Result of one iteration of the `while` body of `_request`: a returned
payload, an exception that propagates out of the function, or a caught
`requests.Timeout` (the only case that can fall through to the backoff
sleep and the next iteration). -/
inductive StepResult where
  | ok (payload : Json)
  | fatal (e : PError)
  | timedOut

/-- The `try` body of `_request` together with its exception handlers,
for one attempt:
status ≥ 400 raises `HTTPError(status, extracted_message, response.text)`;
a body that fails to decode raises `ResponseDecodeError`; a decoded body
that is not a dict raises `ResponseDecodeError`; a non-timeout
`requests.RequestException` raises `HTTPError(-1, ...)`; a
`requests.Timeout` is caught for the retry logic. -/
def attemptStep (o : AttemptOutcome) : StepResult :=
  match o with
  | .timeout => .timedOut
  | .transportError => .fatal (.http (-1) transportErrMsg none)
  | .response r =>
      if r.status ≥ 400 then
        .fatal (.http (r.status : ℤ) (extractErrorMessage r) (some r.text))
      else
        match r.json with
        | none => .fatal (.decode decodeNotJsonMsg)
        | some j =>
            match j with
            | .obj kvs => .ok (.obj kvs)
            | _ => .fatal (.decode decodeNotObjectMsg)

/-- Observable result of a `_request` run: how many attempts were made,
which backoff delays were slept, and the returned payload or raised
error. -/
structure RunResult where
  attempts : ℕ
  sleeps : List ℚ
  result : Except PError Json

/-- The `while attempt < self.max_retries` loop of `_request`.
`remaining = maxRetries - attempted` is the loop-guard fuel: the guard
`attempt < max_retries` fails exactly when `remaining = 0`, and then the
post-loop `raise TimeoutError(...)` (line 275) fires.  Inside an
iteration, a timeout on the final attempt raises `TimeoutError`; a
timeout on a non-final attempt sleeps `_backoff_delay(attempt)` (the
`if attempt < self.max_retries` guard) and continues. -/
def requestAux (maxRetries : ℕ) (outcomes : ℕ → AttemptOutcome) :
    ℕ → ℕ → List ℚ → RunResult
  | 0, attempted, sleeps => ⟨attempted, sleeps, .error (.timeout timeoutFallbackMsg)⟩
  | remaining + 1, attempted, sleeps =>
      match attemptStep (outcomes (attempted + 1)) with
      | .ok p => ⟨attempted + 1, sleeps, .ok p⟩
      | .fatal e => ⟨attempted + 1, sleeps, .error e⟩
      | .timedOut =>
          if attempted + 1 ≥ maxRetries then
            ⟨attempted + 1, sleeps, .error (.timeout timeoutRepeatedMsg)⟩
          else
            requestAux maxRetries outcomes remaining (attempted + 1)
              (sleeps ++ [backoffDelay (attempted + 1)])

/-- `PhosphobotClient._request`, abstracted over the per-attempt
transport outcomes (attempts are numbered from 1). -/
def requestLoop (maxRetries : ℕ) (outcomes : ℕ → AttemptOutcome) : RunResult :=
  requestAux maxRetries outcomes maxRetries 0 []

/-- `PhosphobotClient.move_absolute`: pick the override envelope if
supplied (else the configured one), validate locally, and only on
success run the request loop; a validation failure is raised before any
network call (0 attempts, no sleeps). -/
def move_absolute (x y z roll pitch yaw grip : PyNum)
    (override : Option MovementLimits) (cfgLimits : MovementLimits)
    (maxRetries : ℕ) (outcomes : ℕ → AttemptOutcome) : RunResult :=
  let active := override.getD cfgLimits
  match validate_move x y z roll pitch yaw grip active with
  | .error e => ⟨0, [], .error e⟩
  | .ok _payload => requestLoop maxRetries outcomes

/-! Helper lemmas about the executor loop and the validators. -/

theorem requestAux_succ (maxRetries : ℕ) (outcomes : ℕ → AttemptOutcome)
    (n a : ℕ) (s : List ℚ) :
    requestAux maxRetries outcomes (n + 1) a s =
      match attemptStep (outcomes (a + 1)) with
      | .ok p => ⟨a + 1, s, .ok p⟩
      | .fatal e => ⟨a + 1, s, .error e⟩
      | .timedOut =>
          if a + 1 ≥ maxRetries then
            ⟨a + 1, s, .error (.timeout timeoutRepeatedMsg)⟩
          else
            requestAux maxRetries outcomes n (a + 1) (s ++ [backoffDelay (a + 1)]) := rfl

theorem attemptStep_fatal_kind (o : AttemptOutcome) (e : PError)
    (h : attemptStep o = .fatal e) :
    e.kindName = "http" ∨ e.kindName = "decode" := by
  cases o with
  | timeout => simp [attemptStep] at h
  | transportError =>
      injection h with h
      subst h; left; rfl
  | response r =>
      simp only [attemptStep] at h
      split at h
      · injection h with h
        subst h; left; rfl
      · cases hj : r.json with
        | none =>
            rw [hj] at h
            injection h with h
            subst h; right; rfl
        | some j =>
            rw [hj] at h
            cases j with
            | obj kvs => exact StepResult.noConfusion h
            | null => injection h with h; subst h; right; rfl
            | bool b => injection h with h; subst h; right; rfl
            | num q => injection h with h; subst h; right; rfl
            | str s => injection h with h; subst h; right; rfl
            | arr xs => injection h with h; subst h; right; rfl

theorem requestAux_all_timeout (maxRetries : ℕ) (outcomes : ℕ → AttemptOutcome)
    (hout : ∀ k, outcomes k = .timeout) :
    ∀ (r a : ℕ) (s : List ℚ), a + r = maxRetries → 1 ≤ r →
      requestAux maxRetries outcomes r a s =
        ⟨maxRetries,
         s ++ (List.range (r - 1)).map (fun i => backoffDelay (a + i + 1)),
         .error (.timeout timeoutRepeatedMsg)⟩ := by
  intro r
  induction r with
  | zero => intro a s _ h1; omega
  | succ r' ih =>
      intro a s hsum _
      rw [requestAux_succ, hout]
      cases r' with
      | zero =>
          simp only [attemptStep]
          rw [if_pos (by omega)]
          simp
          omega
      | succ r'' =>
          simp only [attemptStep]
          rw [if_neg (by omega)]
          rw [ih (a + 1) (s ++ [backoffDelay (a + 1)]) (by omega) (by omega)]
          congr 1
          rw [List.append_assoc]
          congr 1
          simp only [Nat.add_sub_cancel]
          rw [List.range_succ_eq_map]
          simp [List.map_map, Function.comp]
          intro i _
          congr 1
          omega

theorem requestAux_result_kind (maxRetries : ℕ) (outcomes : ℕ → AttemptOutcome) :
    ∀ (r a : ℕ) (s : List ℚ) (e : PError),
      (requestAux maxRetries outcomes r a s).result = .error e →
      e.kindName = "http" ∨ e.kindName = "timeout" ∨ e.kindName = "decode" := by
  intro r
  induction r with
  | zero =>
      intro a s e h
      simp only [requestAux] at h
      cases h
      right; left; rfl
  | succ r' ih =>
      intro a s e h
      rw [requestAux_succ] at h
      split at h
      case _ p heq => simp at h
      case _ e' heq =>
          simp only at h
          cases h
          rcases attemptStep_fatal_kind _ _ heq with h1 | h1
          · left; exact h1
          · right; right; exact h1
      case _ heq =>
          split at h
          · simp only at h
            cases h
            right; left; rfl
          · exact ih _ _ _ h

theorem requestAux_no_fallback (maxRetries : ℕ) (outcomes : ℕ → AttemptOutcome) :
    ∀ (r a : ℕ) (s : List ℚ), a + r = maxRetries → 1 ≤ r →
      (requestAux maxRetries outcomes r a s).result ≠
        .error (.timeout timeoutFallbackMsg) := by
  intro r
  induction r with
  | zero => intro a s _ h1; omega
  | succ r' ih =>
      intro a s hsum _ h
      rw [requestAux_succ] at h
      split at h
      case _ p heq => simp at h
      case _ e' heq =>
          simp only at h
          cases h
          rcases attemptStep_fatal_kind _ _ heq with h1 | h1 <;>
            simp [PError.kindName] at h1
      case _ heq =>
          split at h
          · simp only at h
            injection h with h
            injection h with h
            exact absurd h (by decide)
          · exact ih (a + 1) (s ++ [backoffDelay (a + 1)]) (by omega) (by omega) h


theorem validateFinite_error_kind (name : String) (v : FloatVal)
    (range? : Option (ℚ × ℚ)) (e : PError)
    (h : validateFinite name v range? = .error e) : e.kindName = "validation" := by
  cases v with
  | finite q =>
      cases range? with
      | none => simp [validateFinite] at h
      | some p =>
          simp only [validateFinite] at h
          split at h
          · injection h with h; subst h; rfl
          · exact Except.noConfusion h
  | nan => injection h with h; subst h; rfl
  | inf => injection h with h; subst h; rfl
  | ninf => injection h with h; subst h; rfl

theorem validate_numeric_error_kind (name : String) (v : PyNum)
    (range? : Option (ℚ × ℚ)) (e : PError)
    (h : validate_numeric name v range? = .error e) : e.kindName = "validation" := by
  cases v with
  | bool b => injection h with h; subst h; rfl
  | str s => injection h with h; subst h; rfl
  | int n =>
      simp only [validate_numeric, pyFloat] at h
      exact validateFinite_error_kind _ _ _ _ h
  | float fv =>
      simp only [validate_numeric, pyFloat] at h
      exact validateFinite_error_kind _ _ _ _ h

theorem validate_grip_error_kind (g : PyNum) (grip_range : ℤ × ℤ) (e : PError)
    (h : validate_grip g grip_range = .error e) : e.kindName = "validation" := by
  cases g with
  | int n =>
      simp only [validate_grip] at h
      split at h
      · injection h with h; subst h; rfl
      · exact Except.noConfusion h
  | bool b => injection h with h; subst h; rfl
  | float fv => injection h with h; subst h; rfl
  | str s => injection h with h; subst h; rfl

theorem validate_move_error_kind (x y z roll pitch yaw grip : PyNum)
    (limits : MovementLimits) (e : PError)
    (h : validate_move x y z roll pitch yaw grip limits = .error e) :
    e.kindName = "validation" := by
  simp only [validate_move, bind, Except.bind] at h
  cases hx : validate_numeric "x_cm" x (limits.get_range "x_cm") with
  | error e1 => rw [hx] at h; cases h; exact validate_numeric_error_kind _ _ _ _ hx
  | ok px =>
  rw [hx] at h
  cases hy : validate_numeric "y_cm" y (limits.get_range "y_cm") with
  | error e1 => rw [hy] at h; cases h; exact validate_numeric_error_kind _ _ _ _ hy
  | ok py =>
  rw [hy] at h
  cases hz : validate_numeric "z_cm" z (limits.get_range "z_cm") with
  | error e1 => rw [hz] at h; cases h; exact validate_numeric_error_kind _ _ _ _ hz
  | ok pz =>
  rw [hz] at h
  cases hr : validate_numeric "roll_deg" roll (limits.get_range "roll_deg") with
  | error e1 => rw [hr] at h; cases h; exact validate_numeric_error_kind _ _ _ _ hr
  | ok pr =>
  rw [hr] at h
  cases hp : validate_numeric "pitch_deg" pitch (limits.get_range "pitch_deg") with
  | error e1 => rw [hp] at h; cases h; exact validate_numeric_error_kind _ _ _ _ hp
  | ok pp =>
  rw [hp] at h
  cases hw : validate_numeric "yaw_deg" yaw (limits.get_range "yaw_deg") with
  | error e1 => rw [hw] at h; cases h; exact validate_numeric_error_kind _ _ _ _ hw
  | ok pw =>
  rw [hw] at h
  cases hg : validate_grip grip limits.grip with
  | error e1 => rw [hg] at h; cases h; exact validate_grip_error_kind _ _ _ hg
  | ok pg => rw [hg] at h; exact Except.noConfusion h


/-- C1 (counterexample): with `maxAttempts = 3`, a generic transport
failure on the very first attempt is converted into an immediate terminal
`HTTPError(-1, ...)` — one single attempt, no backoff, no transition to
attempt 2 and no `Timeout` failure — contradicting the claim that
transport failures are transient and never terminal before `maxAttempts`. -/
theorem transport_failure_immediately_terminal :
    requestLoop 3 (fun _ => AttemptOutcome.transportError) =
      ⟨1, [], .error (.http (-1) transportErrMsg none)⟩ ∧
    PError.kindName (.http (-1) transportErrMsg none) ≠ "timeout" := by
  constructor
  · norm_num [requestLoop, requestAux, attemptStep]
  · decide

/-- C1 (amended): only the request timeout is transient: while attempts
keep timing out the executor reaches attempt `n+1` after a backoff delay
and produces the `Timeout` failure exactly when attempt `maxAttempts`
times out; a generic transport/connection failure is instead terminal at
once, surfaced as an `Http` error with status `-1`, with no retry. -/
theorem timeout_transient_transport_terminal (mr : ℕ)
    (outcomes : ℕ → AttemptOutcome) (hmr : 1 ≤ mr) :
    ((∀ k, outcomes k = AttemptOutcome.timeout) →
      requestLoop mr outcomes =
        ⟨mr, (List.range (mr - 1)).map (fun i => backoffDelay (i + 1)),
         .error (.timeout timeoutRepeatedMsg)⟩) ∧
    (outcomes 1 = AttemptOutcome.transportError →
      requestLoop mr outcomes = ⟨1, [], .error (.http (-1) transportErrMsg none)⟩) := by
  constructor
  · intro hout
    rw [requestLoop, requestAux_all_timeout mr outcomes hout mr 0 [] (by omega) hmr]
    simp
  · intro h1
    obtain ⟨m, rfl⟩ : ∃ m, mr = m + 1 := ⟨mr - 1, by omega⟩
    rw [requestLoop, requestAux_succ, h1]
    rfl

/-- C1 (witness): the amended theorem at `maxAttempts = 2` with every
attempt timing out, and at `maxAttempts = 4` with a transport failure. -/
theorem timeout_transient_transport_terminal_w :
    requestLoop 2 (fun _ => AttemptOutcome.timeout) =
      ⟨2, (List.range 1).map (fun i => backoffDelay (i + 1)),
       .error (.timeout timeoutRepeatedMsg)⟩ ∧
    requestLoop 4 (fun _ => AttemptOutcome.transportError) =
      ⟨1, [], .error (.http (-1) transportErrMsg none)⟩ :=
  ⟨(timeout_transient_transport_terminal 2 _ (by norm_num)).1 (fun k => rfl),
   (timeout_transient_transport_terminal 4 _ (by norm_num)).2 rfl⟩

/-- C2 (counterexample): the backoff delay for attempt 5 is
`min(0.25 * 2^4, 5.0) = 4.0` seconds, not 5.0 as the claim asserts. -/
theorem backoff_attempt5_is_four :
    backoffDelay 5 = 4 ∧ (4 : ℚ) ≠ 5 := by
  constructor
  · norm_num [backoffDelay, pymin]
  · norm_num

/-- C2 (amended): for every attempt `n ≥ 1` the backoff delay is
`min(0.25 * 2^(n-1), 5.0)` seconds — 0.25 s for attempt 1, 0.5 s for
attempt 2, 4.0 s for attempt 5, first capped at 5.0 s from attempt 6 —
and in a run where every attempt times out the delays slept are exactly
those for attempts 1 .. maxAttempts-1 (after each failed attempt and
before the next one, skipped after the final attempt). -/
theorem backoff_formula (n : ℕ) (hn : 1 ≤ n) :
    backoffDelay n = min ((1 / 4 : ℚ) * 2 ^ (n - 1)) 5 ∧
    backoffDelay 1 = 1 / 4 ∧ backoffDelay 2 = 1 / 2 ∧
    backoffDelay 5 = 4 ∧ backoffDelay 6 = 5 ∧
    (∀ (mr : ℕ) (outcomes : ℕ → AttemptOutcome), 1 ≤ mr →
      (∀ k, outcomes k = AttemptOutcome.timeout) →
      (requestLoop mr outcomes).sleeps =
        (List.range (mr - 1)).map (fun i => backoffDelay (i + 1))) := by
  refine ⟨pymin_eq_min _ _, by norm_num [backoffDelay, pymin],
    by norm_num [backoffDelay, pymin], by norm_num [backoffDelay, pymin],
    by norm_num [backoffDelay, pymin], ?_⟩
  intro mr outcomes hmr hout
  rw [requestLoop, requestAux_all_timeout mr outcomes hout mr 0 [] (by omega) hmr]
  simp

/-- C2 (witness): the amended theorem evaluated at attempt 5. -/
theorem backoff_formula_w : backoffDelay 5 = 4 :=
  (backoff_formula 5 (by norm_num)).2.2.2.1

/-- C5: with `maxAttempts = 2` and every attempt failing with the
transient error (a request timeout), the executor performs exactly 2
attempts and exactly 1 backoff sleep (of 0.25 s), then produces the
`Timeout` failure. -/
theorem two_attempts_one_sleep (outcomes : ℕ → AttemptOutcome)
    (hout : ∀ k, outcomes k = AttemptOutcome.timeout) :
    requestLoop 2 outcomes = ⟨2, [1 / 4], .error (.timeout timeoutRepeatedMsg)⟩ := by
  rw [requestLoop, requestAux_all_timeout 2 outcomes hout 2 0 [] rfl (by norm_num)]
  rw [show List.range 1 = [0] from rfl]
  norm_num [backoffDelay, pymin]

/-- C5 (witness): the theorem at the constant all-timeouts outcome. -/
theorem two_attempts_one_sleep_w :
    requestLoop 2 (fun _ => AttemptOutcome.timeout) =
      ⟨2, [1 / 4], .error (.timeout timeoutRepeatedMsg)⟩ :=
  two_attempts_one_sleep _ (fun k => rfl)

theorem requestAux_attempts_le (maxRetries : ℕ) (outcomes : ℕ → AttemptOutcome) :
    ∀ (r a : ℕ) (s : List ℚ), a ≤ (requestAux maxRetries outcomes r a s).attempts := by
  intro r
  induction r with
  | zero => intro a s; exact le_refl a
  | succ r' ih =>
      intro a s
      rw [requestAux_succ]
      split
      · exact Nat.le_succ a
      · exact Nat.le_succ a
      · split
        · exact Nat.le_succ a
        · exact le_trans (Nat.le_succ a) (ih (a + 1) _)

theorem requestAux_attempts_pos (maxRetries : ℕ) (outcomes : ℕ → AttemptOutcome)
    (r a : ℕ) (s : List ℚ) (hr : 1 ≤ r) :
    a + 1 ≤ (requestAux maxRetries outcomes r a s).attempts := by
  obtain ⟨r', rfl⟩ : ∃ r', r = r' + 1 := ⟨r - 1, by omega⟩
  rw [requestAux_succ]
  split
  · exact le_refl _
  · exact le_refl _
  · split
    · exact le_refl _
    · exact requestAux_attempts_le maxRetries outcomes r' (a + 1) _

/-- C9: for every configured `max_retries` (zero and negatives included)
the effective attempt bound stored at construction is `max 1 max_retries`,
hence at least one attempt is performed, and the fallback
`TimeoutError` raise placed after the loop (line 275) is unreachable:
no run ever produces it. -/
theorem clamp_and_fallback_unreachable (mr : ℤ) :
    clampRetries mr = max 1 mr ∧ 1 ≤ clampRetries mr ∧
    ∀ outcomes : ℕ → AttemptOutcome,
      (requestLoop (clampRetries mr).toNat outcomes).attempts ≥ 1 ∧
      (requestLoop (clampRetries mr).toNat outcomes).result ≠
        .error (.timeout timeoutFallbackMsg) := by
  have hc : 1 ≤ clampRetries mr := by
    unfold clampRetries; split <;> omega
  refine ⟨?_, hc, ?_⟩
  · unfold clampRetries
    split
    · exact (max_eq_right (by omega)).symm
    · exact (max_eq_left (by omega)).symm
  · intro outcomes
    have h1 : 1 ≤ (clampRetries mr).toNat := by omega
    constructor
    · exact requestAux_attempts_pos _ outcomes _ 0 [] h1
    · exact requestAux_no_fallback _ outcomes _ 0 [] (by omega) h1

/-- C9 (witness): the theorem at configured `max_retries = -5` (clamped
to 1) and at `max_retries = 0` with all attempts timing out. -/
theorem clamp_and_fallback_unreachable_w :
    clampRetries (-5) = max 1 (-5) ∧
    (requestLoop (clampRetries 0).toNat (fun _ => AttemptOutcome.timeout)).result ≠
      .error (.timeout timeoutFallbackMsg) :=
  ⟨(clamp_and_fallback_unreachable (-5)).1,
   ((clamp_and_fallback_unreachable 0).2.2 (fun _ => AttemptOutcome.timeout)).2⟩

/-- C10: for every axis name and every configured range, a boolean-typed
value is rejected with a `Validation` failure (bools are never silently
coerced to 0.0 or 1.0: no boolean input ever validates). -/
theorem bool_pose_value_rejected (name : String) (b : Bool)
    (range? : Option (ℚ × ℚ)) :
    validate_numeric name (.bool b) range? =
      .error (.validation name .notNumber) ∧
    ∀ q : ℚ, validate_numeric name (.bool b) range? ≠ .ok q := by
  refine ⟨rfl, ?_⟩
  intro q h
  exact Except.noConfusion h


/-- C3: numeric pose validation rejects non-numeric input with a
`Validation` failure, rejects NaN and ±infinity regardless of the
envelope, and — only when a range is configured — rejects values
strictly outside `[min, max]`; values exactly at `min` or `max` are
accepted, an unset range is unconstrained, and an accepted value is
returned unchanged as a float. -/
theorem numeric_validation_spec (name : String) (range? : Option (ℚ × ℚ)) :
    (∀ s, validate_numeric name (.str s) range? =
      .error (.validation name .notNumber)) ∧
    (validate_numeric name (.float .nan) range? =
      .error (.validation name .notFinite)) ∧
    (validate_numeric name (.float .inf) range? =
      .error (.validation name .notFinite)) ∧
    (validate_numeric name (.float .ninf) range? =
      .error (.validation name .notFinite)) ∧
    (∀ q : ℚ, validate_numeric name (.float (.finite q)) none = .ok q) ∧
    (∀ n : ℤ, validate_numeric name (.int n) none = .ok (n : ℚ)) ∧
    (∀ q lo hi : ℚ, q < lo ∨ q > hi →
      validate_numeric name (.float (.finite q)) (some (lo, hi)) =
        .error (.validation name .outOfRange)) ∧
    (∀ q lo hi : ℚ, lo ≤ q → q ≤ hi →
      validate_numeric name (.float (.finite q)) (some (lo, hi)) = .ok q) ∧
    (∀ (n : ℤ) (lo hi : ℚ), lo ≤ (n : ℚ) → (n : ℚ) ≤ hi →
      validate_numeric name (.int n) (some (lo, hi)) = .ok (n : ℚ)) := by
  refine ⟨fun s => rfl, rfl, rfl, rfl, fun q => rfl, fun n => rfl, ?_, ?_, ?_⟩
  · intro q lo hi h
    simp only [validate_numeric, pyFloat, validateFinite]
    rw [if_pos h]
  · intro q lo hi h1 h2
    simp only [validate_numeric, pyFloat, validateFinite]
    rw [if_neg (by push_neg; exact ⟨h1, h2⟩)]
  · intro n lo hi h1 h2
    simp only [validate_numeric, pyFloat, validateFinite]
    rw [if_neg (by push_neg; exact ⟨h1, h2⟩)]

/-- C3 (witness): x at 81 cm is strictly outside the default x-range and
rejected; x exactly at the 80 cm maximum and z exactly at the 0 cm
minimum are accepted unchanged. -/
theorem numeric_validation_spec_w :
    validate_numeric "x_cm" (.float (.finite 81)) (some (-80, 80)) =
      .error (.validation "x_cm" .outOfRange) ∧
    validate_numeric "x_cm" (.float (.finite 80)) (some (-80, 80)) = .ok 80 ∧
    validate_numeric "z_cm" (.float (.finite 0)) (some (0, 90)) = .ok 0 :=
  ⟨(numeric_validation_spec "x_cm" none).2.2.2.2.2.2.1 81 (-80) 80
      (Or.inr (by norm_num)),
   (numeric_validation_spec "x_cm" none).2.2.2.2.2.2.2.1 80 (-80) 80
      (by norm_num) (by norm_num),
   (numeric_validation_spec "z_cm" none).2.2.2.2.2.2.2.1 0 0 90
      (by norm_num) (by norm_num)⟩

/-- C8: grip validation rejects boolean-typed and float-typed (hence
fractional) input with a `Validation` failure, rejects integers strictly
outside the mandatory grip range — `[0, 100]` under the default
envelope — and accepts and returns unchanged every integer inside it,
including exactly 0 and exactly 100. -/
theorem grip_validation_spec (grip_range : ℤ × ℤ) :
    (∀ b, validate_grip (.bool b) grip_range =
      .error (.validation "grip" .notInteger)) ∧
    (∀ v, validate_grip (.float v) grip_range =
      .error (.validation "grip" .notInteger)) ∧
    (∀ n : ℤ, n < grip_range.1 ∨ n > grip_range.2 →
      validate_grip (.int n) grip_range = .error (.validation "grip" .outOfRange)) ∧
    (∀ n : ℤ, grip_range.1 ≤ n → n ≤ grip_range.2 →
      validate_grip (.int n) grip_range = .ok n) ∧
    defaultLimits.grip = (0, 100) ∧
    validate_grip (.int 0) defaultLimits.grip = .ok 0 ∧
    validate_grip (.int 100) defaultLimits.grip = .ok 100 ∧
    (∀ n : ℤ, n < 0 ∨ n > 100 →
      validate_grip (.int n) defaultLimits.grip =
        .error (.validation "grip" .outOfRange)) := by
  have hout : ∀ (gr : ℤ × ℤ) (n : ℤ), n < gr.1 ∨ n > gr.2 →
      validate_grip (.int n) gr = .error (.validation "grip" .outOfRange) := by
    intro gr n h
    simp only [validate_grip]
    rw [if_pos h]
  have hin : ∀ (gr : ℤ × ℤ) (n : ℤ), gr.1 ≤ n → n ≤ gr.2 →
      validate_grip (.int n) gr = .ok n := by
    intro gr n h1 h2
    simp only [validate_grip]
    rw [if_neg (by push_neg; exact ⟨h1, h2⟩)]
  refine ⟨fun b => rfl, fun v => rfl, hout grip_range, hin grip_range, rfl,
    hin _ 0 (by norm_num [defaultLimits]) (by norm_num [defaultLimits]),
    hin _ 100 (by norm_num [defaultLimits]) (by norm_num [defaultLimits]),
    fun n h => hout _ n h⟩

/-- C8 (witness): grip 101 is rejected under the default envelope and
grip 50 is accepted under the default envelope. -/
theorem grip_validation_spec_w :
    validate_grip (.int 101) defaultLimits.grip =
      .error (.validation "grip" .outOfRange) ∧
    validate_grip (.int 50) defaultLimits.grip = .ok 50 :=
  ⟨(grip_validation_spec defaultLimits.grip).2.2.2.2.2.2.2 101
      (Or.inr (by norm_num)),
   (grip_validation_spec defaultLimits.grip).2.2.2.1 50
      (by norm_num [defaultLimits]) (by norm_num [defaultLimits])⟩

/-- C10 (witness): the theorem at axis `x_cm`, value `True`, no range. -/
theorem bool_pose_value_rejected_w :
    validate_numeric "x_cm" (.bool true) none =
      .error (.validation "x_cm" .notNumber) :=
  (bool_pose_value_rejected "x_cm" true none).1

/-- C7 (counterexample): the code has no `Transport` error kind — a
generic transport failure is surfaced as an error of the `Http` kind,
with status -1 — and exhausted timeouts raise a `Timeout` carrying a
fixed message, not the attempt count. -/
theorem taxonomy_counterexample :
    (requestLoop 1 (fun _ => AttemptOutcome.transportError)).result =
      .error (.http (-1) transportErrMsg none) ∧
    PError.kindName (.http (-1) transportErrMsg none) = "http" ∧
    "http" ≠ "transport" ∧
    (requestLoop 1 (fun _ => AttemptOutcome.timeout)).result =
      .error (.timeout timeoutRepeatedMsg) := by
  refine ⟨?_, rfl, by decide, ?_⟩
  · norm_num [requestLoop, requestAux, attemptStep]
  · norm_num [requestLoop, requestAux, attemptStep]

/-- C7 (amended): the taxonomy is the closed flat set `Validation`,
`Http(statusCode, message, rawBody)`, `Timeout(message)`,
`Decode(reason)`: every executor failure is of the `Http`, `Timeout` or
`Decode` kind (transport failures among the `Http` kind, with status
-1), every validator failure is of the `Validation` kind, and no kind
wraps another. -/
theorem taxonomy_flat_closed (mr : ℕ) (outcomes : ℕ → AttemptOutcome)
    (e : PError) :
    ((requestLoop mr outcomes).result = .error e →
      e.kindName = "http" ∨ e.kindName = "timeout" ∨ e.kindName = "decode") ∧
    (∀ x y z roll pitch yaw grip limits,
      validate_move x y z roll pitch yaw grip limits = .error e →
      e.kindName = "validation") ∧
    (1 ≤ mr → outcomes 1 = AttemptOutcome.transportError →
      (requestLoop mr outcomes).result = .error (.http (-1) transportErrMsg none)) := by
  refine ⟨?_, ?_, ?_⟩
  · intro h
    exact requestAux_result_kind mr outcomes mr 0 [] e h
  · intro x y z roll pitch yaw grip limits h
    exact validate_move_error_kind x y z roll pitch yaw grip limits e h
  · intro hmr h1
    obtain ⟨m, rfl⟩ : ∃ m, mr = m + 1 := ⟨mr - 1, by omega⟩
    rw [requestLoop, requestAux_succ, h1]
    rfl

/-- C7 (witness): the amended theorem at a one-attempt transport failure
and at a concrete decode failure. -/
theorem taxonomy_flat_closed_w :
    (requestLoop 1 (fun _ => AttemptOutcome.transportError)).result =
      .error (.http (-1) transportErrMsg none) ∧
    (PError.kindName (.decode decodeNotObjectMsg) = "http" ∨
     PError.kindName (.decode decodeNotObjectMsg) = "timeout" ∨
     PError.kindName (.decode decodeNotObjectMsg) = "decode") :=
  ⟨(taxonomy_flat_closed 1 _ (.decode decodeNotObjectMsg)).2.2 (by norm_num) rfl,
   (taxonomy_flat_closed 1 (fun _ => AttemptOutcome.response ⟨200, "", some (.arr [])⟩)
      (.decode decodeNotObjectMsg)).1 (by norm_num [requestLoop, requestAux, attemptStep])⟩


theorem attemptStep_obj (r : HttpResponse) (j : Json)
    (hs : ¬r.status ≥ 400) (hj : r.json = some j) (hobj : j.isObj = true) :
    attemptStep (.response r) = .ok j := by
  simp only [attemptStep]
  rw [if_neg hs, hj]
  cases j <;> simp [Json.isObj] at hobj ⊢

theorem attemptStep_nonobj (r : HttpResponse) (j : Json)
    (hs : ¬r.status ≥ 400) (hj : r.json = some j) (hobj : j.isObj = false) :
    attemptStep (.response r) = .fatal (.decode decodeNotObjectMsg) := by
  simp only [attemptStep]
  rw [if_neg hs, hj]
  cases j <;> simp [Json.isObj] at hobj ⊢

/-- C6: when the first attempt yields an HTTP response, the request
makes exactly that one attempt (no sleeps, no retry whatever the
remaining budget): it succeeds with the decoded object exactly when the
status is < 400 and the body decodes to a JSON object; a body that is
not valid JSON, or decodes to a non-object, yields the corresponding
`Decode` failure even at status 200; and a status ≥ 400 yields the
`Http` failure. -/
theorem success_criterion (mr : ℕ) (outcomes : ℕ → AttemptOutcome)
    (r : HttpResponse) (hmr : 1 ≤ mr) (h1 : outcomes 1 = .response r) :
    ((requestLoop mr outcomes).attempts = 1 ∧
     (requestLoop mr outcomes).sleeps = []) ∧
    (∀ p, (requestLoop mr outcomes).result = .ok p ↔
      (r.status < 400 ∧ r.json = some p ∧ p.isObj = true)) ∧
    (r.status < 400 → r.json = none →
      (requestLoop mr outcomes).result = .error (.decode decodeNotJsonMsg)) ∧
    (∀ j, r.status < 400 → r.json = some j → j.isObj = false →
      (requestLoop mr outcomes).result = .error (.decode decodeNotObjectMsg)) ∧
    (400 ≤ r.status →
      (requestLoop mr outcomes).result =
        .error (.http (r.status : ℤ) (extractErrorMessage r) (some r.text))) := by
  obtain ⟨m, rfl⟩ : ∃ m, mr = m + 1 := ⟨mr - 1, by omega⟩
  by_cases hs : r.status ≥ 400
  · have hstep : attemptStep (.response r) =
        .fatal (.http (r.status : ℤ) (extractErrorMessage r) (some r.text)) := by
      simp only [attemptStep]
      rw [if_pos hs]
    have hrun : requestLoop (m + 1) outcomes =
        ⟨1, [], .error (.http (r.status : ℤ) (extractErrorMessage r) (some r.text))⟩ := by
      rw [requestLoop, requestAux_succ, h1, hstep]
    rw [hrun]
    refine ⟨⟨rfl, rfl⟩, ?_, ?_, ?_, fun _ => rfl⟩
    · intro p
      constructor
      · intro h; exact Except.noConfusion h
      · rintro ⟨hlt, -, -⟩; omega
    · intro hlt _; omega
    · intro j hlt _ _; omega
  · have hlt : r.status < 400 := by omega
    cases hj : r.json with
    | none =>
        have hstep : attemptStep (.response r) = .fatal (.decode decodeNotJsonMsg) := by
          simp only [attemptStep]
          rw [if_neg hs, hj]
        have hrun : requestLoop (m + 1) outcomes =
            ⟨1, [], .error (.decode decodeNotJsonMsg)⟩ := by
          rw [requestLoop, requestAux_succ, h1, hstep]
        rw [hrun]
        refine ⟨⟨rfl, rfl⟩, ?_, fun _ _ => rfl, ?_, ?_⟩
        · intro p
          constructor
          · intro h; exact Except.noConfusion h
          · rintro ⟨-, hsome, -⟩
            exact Option.noConfusion hsome
        · intro j _ hsome _
          exact Option.noConfusion hsome
        · intro h4; omega
    | some j =>
        by_cases hobj : j.isObj = true
        · have hrun : requestLoop (m + 1) outcomes = ⟨1, [], .ok j⟩ := by
            rw [requestLoop, requestAux_succ, h1, attemptStep_obj r j hs hj hobj]
          rw [hrun]
          refine ⟨⟨rfl, rfl⟩, ?_, ?_, ?_, ?_⟩
          · intro p
            constructor
            · intro h
              injection h with h
              subst h
              exact ⟨hlt, rfl, hobj⟩
            · rintro ⟨-, hsome, -⟩
              injection hsome with hsome
              subst hsome
              rfl
          · intro _ hnone
            exact Option.noConfusion hnone
          · intro j' _ hsome hfalse
            injection hsome with hsome
            subst hsome
            rw [hobj] at hfalse
            exact Bool.noConfusion hfalse
          · intro h4; omega
        · have hfalse : j.isObj = false := by
            cases hval : j.isObj
            · rfl
            · exact absurd hval hobj
          have hrun : requestLoop (m + 1) outcomes =
              ⟨1, [], .error (.decode decodeNotObjectMsg)⟩ := by
            rw [requestLoop, requestAux_succ, h1,
              attemptStep_nonobj r j hs hj hfalse]
          rw [hrun]
          refine ⟨⟨rfl, rfl⟩, ?_, ?_, fun _ _ _ _ => rfl, ?_⟩
          · intro p
            constructor
            · intro h; exact Except.noConfusion h
            · rintro ⟨-, hsome, hptrue⟩
              injection hsome with hsome
              subst hsome
              rw [hfalse] at hptrue
              exact Bool.noConfusion hptrue
          · intro _ hnone
            exact Option.noConfusion hnone
          · intro h4; omega

/-- C6 (witness): the theorem at a status-200 response whose JSON body
is an array, with retry budget 3: one attempt, a `Decode` failure. -/
theorem success_criterion_w :
    (requestLoop 3 (fun _ => AttemptOutcome.response ⟨200, "[1]", some (.arr [.num 1])⟩)).result =
      .error (.decode decodeNotObjectMsg) :=
  ((success_criterion 3 _ ⟨200, "[1]", some (.arr [.num 1])⟩ (by norm_num)
      rfl).2.2.2.1) (.arr [.num 1]) (by norm_num) rfl rfl


/-- C4: `move_absolute` validates against the override envelope when one
is supplied (else the configured one); validation runs the fields in the
fixed order x, y, z, roll, pitch, yaw, grip with the first failing field
producing the error; on success the full payload is built from exactly
the validated values (never partially); and on any validation failure
the operation returns at once with zero network attempts and no sleeps. -/
theorem move_validation_order (x y z roll pitch yaw grip : PyNum)
    (o cfg : MovementLimits) (mr : ℕ) (outcomes : ℕ → AttemptOutcome) :
    (move_absolute x y z roll pitch yaw grip (some o) cfg mr outcomes =
      move_absolute x y z roll pitch yaw grip none o mr outcomes) ∧
    (∀ (limits : MovementLimits) (e : PError),
      validate_move x y z roll pitch yaw grip limits = .error e →
      move_absolute x y z roll pitch yaw grip none limits mr outcomes =
        ⟨0, [], .error e⟩) ∧
    (∀ (limits : MovementLimits) (e : PError),
      validate_numeric "x_cm" x (limits.get_range "x_cm") = .error e →
      validate_move x y z roll pitch yaw grip limits = .error e) ∧
    (∀ (limits : MovementLimits) (e : PError) (px : ℚ),
      validate_numeric "x_cm" x (limits.get_range "x_cm") = .ok px →
      validate_numeric "y_cm" y (limits.get_range "y_cm") = .error e →
      validate_move x y z roll pitch yaw grip limits = .error e) ∧
    (∀ (limits : MovementLimits) (e : PError) (px py : ℚ),
      validate_numeric "x_cm" x (limits.get_range "x_cm") = .ok px →
      validate_numeric "y_cm" y (limits.get_range "y_cm") = .ok py →
      validate_numeric "z_cm" z (limits.get_range "z_cm") = .error e →
      validate_move x y z roll pitch yaw grip limits = .error e) ∧
    (∀ (limits : MovementLimits) (e : PError) (px py pz : ℚ),
      validate_numeric "x_cm" x (limits.get_range "x_cm") = .ok px →
      validate_numeric "y_cm" y (limits.get_range "y_cm") = .ok py →
      validate_numeric "z_cm" z (limits.get_range "z_cm") = .ok pz →
      validate_numeric "roll_deg" roll (limits.get_range "roll_deg") = .error e →
      validate_move x y z roll pitch yaw grip limits = .error e) ∧
    (∀ (limits : MovementLimits) (e : PError) (px py pz pr : ℚ),
      validate_numeric "x_cm" x (limits.get_range "x_cm") = .ok px →
      validate_numeric "y_cm" y (limits.get_range "y_cm") = .ok py →
      validate_numeric "z_cm" z (limits.get_range "z_cm") = .ok pz →
      validate_numeric "roll_deg" roll (limits.get_range "roll_deg") = .ok pr →
      validate_numeric "pitch_deg" pitch (limits.get_range "pitch_deg") = .error e →
      validate_move x y z roll pitch yaw grip limits = .error e) ∧
    (∀ (limits : MovementLimits) (e : PError) (px py pz pr pp : ℚ),
      validate_numeric "x_cm" x (limits.get_range "x_cm") = .ok px →
      validate_numeric "y_cm" y (limits.get_range "y_cm") = .ok py →
      validate_numeric "z_cm" z (limits.get_range "z_cm") = .ok pz →
      validate_numeric "roll_deg" roll (limits.get_range "roll_deg") = .ok pr →
      validate_numeric "pitch_deg" pitch (limits.get_range "pitch_deg") = .ok pp →
      validate_numeric "yaw_deg" yaw (limits.get_range "yaw_deg") = .error e →
      validate_move x y z roll pitch yaw grip limits = .error e) ∧
    (∀ (limits : MovementLimits) (e : PError) (px py pz pr pp pw : ℚ),
      validate_numeric "x_cm" x (limits.get_range "x_cm") = .ok px →
      validate_numeric "y_cm" y (limits.get_range "y_cm") = .ok py →
      validate_numeric "z_cm" z (limits.get_range "z_cm") = .ok pz →
      validate_numeric "roll_deg" roll (limits.get_range "roll_deg") = .ok pr →
      validate_numeric "pitch_deg" pitch (limits.get_range "pitch_deg") = .ok pp →
      validate_numeric "yaw_deg" yaw (limits.get_range "yaw_deg") = .ok pw →
      validate_grip grip limits.grip = .error e →
      validate_move x y z roll pitch yaw grip limits = .error e) ∧
    (∀ (limits : MovementLimits) (px py pz pr pp pw : ℚ) (pg : ℤ),
      validate_numeric "x_cm" x (limits.get_range "x_cm") = .ok px →
      validate_numeric "y_cm" y (limits.get_range "y_cm") = .ok py →
      validate_numeric "z_cm" z (limits.get_range "z_cm") = .ok pz →
      validate_numeric "roll_deg" roll (limits.get_range "roll_deg") = .ok pr →
      validate_numeric "pitch_deg" pitch (limits.get_range "pitch_deg") = .ok pp →
      validate_numeric "yaw_deg" yaw (limits.get_range "yaw_deg") = .ok pw →
      validate_grip grip limits.grip = .ok pg →
      validate_move x y z roll pitch yaw grip limits =
        .ok ⟨px, py, pz, pr, pp, pw, pg⟩) := by
  refine ⟨rfl, ?_, ?_, ?_, ?_, ?_, ?_, ?_, ?_, ?_⟩
  · intro limits e h
    simp only [move_absolute, Option.getD]
    rw [h]
  · intro limits e hx
    simp only [validate_move, bind, Except.bind]
    rw [hx]
  · intro limits e px hx hy
    simp only [validate_move, bind, Except.bind]
    rw [hx, hy]
  · intro limits e px py hx hy hz
    simp only [validate_move, bind, Except.bind]
    rw [hx, hy, hz]
  · intro limits e px py pz hx hy hz hr
    simp only [validate_move, bind, Except.bind]
    rw [hx, hy, hz, hr]
  · intro limits e px py pz pr hx hy hz hr hp
    simp only [validate_move, bind, Except.bind]
    rw [hx, hy, hz, hr, hp]
  · intro limits e px py pz pr pp hx hy hz hr hp hw
    simp only [validate_move, bind, Except.bind]
    rw [hx, hy, hz, hr, hp, hw]
  · intro limits e px py pz pr pp pw hx hy hz hr hp hw hg
    simp only [validate_move, bind, Except.bind]
    rw [hx, hy, hz, hr, hp, hw, hg]
  · intro limits px py pz pr pp pw pg hx hy hz hr hp hw hg
    simp only [validate_move, bind, Except.bind, pure, Except.pure]
    rw [hx, hy, hz, hr, hp, hw, hg]

/-- C4 (witness): an x out of the default range makes `move_absolute`
fail with that field's `Validation` error and zero network attempts, and
the full chain from the example pose builds the complete payload. -/
theorem move_validation_order_w :
    move_absolute (.float (.finite 81)) (.float (.finite 0)) (.float (.finite 15))
      (.float (.finite 0)) (.float (.finite 0)) (.float (.finite 0)) (.int 50)
      none defaultLimits 3 (fun _ => AttemptOutcome.timeout) =
      ⟨0, [], .error (.validation "x_cm" .outOfRange)⟩ ∧
    validate_move (.float (.finite 25)) (.float (.finite 0)) (.float (.finite 15))
      (.float (.finite 0)) (.float (.finite (-30))) (.float (.finite 0)) (.int 50)
      defaultLimits = .ok ⟨25, 0, 15, 0, -30, 0, 50⟩ :=
  ⟨(move_validation_order (.float (.finite 81)) (.float (.finite 0))
      (.float (.finite 15)) (.float (.finite 0)) (.float (.finite 0))
      (.float (.finite 0)) (.int 50) defaultLimits defaultLimits 3
      (fun _ => AttemptOutcome.timeout)).2.1 defaultLimits _
      (by norm_num [validate_move, validate_numeric, validateFinite, pyFloat,
        defaultLimits, MovementLimits.get_range, bind, Except.bind]),
   (move_validation_order (.float (.finite 25)) (.float (.finite 0))
      (.float (.finite 15)) (.float (.finite 0)) (.float (.finite (-30)))
      (.float (.finite 0)) (.int 50) defaultLimits defaultLimits 3
      (fun _ => AttemptOutcome.timeout)).2.2.2.2.2.2.2.2.2 defaultLimits
      25 0 15 0 (-30) 0 50
      (by norm_num [validate_numeric, validateFinite, pyFloat, defaultLimits,
        MovementLimits.get_range])
      (by norm_num [validate_numeric, validateFinite, pyFloat, defaultLimits,
        MovementLimits.get_range])
      (by norm_num [validate_numeric, validateFinite, pyFloat, defaultLimits,
        MovementLimits.get_range])
      (by norm_num [validate_numeric, validateFinite, pyFloat, defaultLimits,
        MovementLimits.get_range])
      (by norm_num [validate_numeric, validateFinite, pyFloat, defaultLimits,
        MovementLimits.get_range])
      (by norm_num [validate_numeric, validateFinite, pyFloat, defaultLimits,
        MovementLimits.get_range])
      (by norm_num [validate_grip, defaultLimits])⟩

end Phosphobot
